import Mathlib

/-!
Verification development for the SCAG model analysis pipeline
(src/config.py, src/utils.py, src/aadt_calculator.py, src/peak_hour_analyzer.py,
src/capacity_analyzer.py, src/truck_analyzer.py).

Shallow embedding conventions:
* a pandas DataFrame is a `List` of typed row structures; each pipeline stage maps a
  per-row function over the list (the vectorised pandas column assignments are all
  element-wise, so this is the same computation);
* float64 cells are modelled by `ℚ` (exact arithmetic in place of IEEE rounding);
* `np.nan` cells are modelled by `Option ℚ` with `none` for NaN;
* a Python `raise ValueError` / `KeyError` is modelled by `Except String`;
* column names that clash with reserved words of this development keep the source
  spelling in a comment next to the field.
-/

namespace Scag

/-- A raw segment record, one row of the input CSV.  The flow columns are exactly the
ones named in `config.PERIOD_FIELDS` (three auto classes and three truck classes for
each of the five periods AM, PM, MD, EVE, NT), the lane columns are the ones named in
`config.LANE_FIELDS`, and `DIRECT` / `TYPE` are `config.DIRECTION_FIELD` /
`config.TYPE_FIELD`.  Numeric cells are rationals. -/
structure SegmentRow where
  DIRECT : String
  TYPE : String
  AB_FLOW_DA : ℚ
  AB_FLOW_SR : ℚ
  AB_FLOW_S1 : ℚ
  AB_FLOW_LI : ℚ
  AB_FLOW_ME : ℚ
  AB_FLOW_HE : ℚ
  AB_FLOW_D1 : ℚ
  AB_FLOW_S4 : ℚ
  AB_FLOW_S5 : ℚ
  AB_FLOW_L1 : ℚ
  AB_FLOW_M1 : ℚ
  AB_FLOW_H1 : ℚ
  AB_FLOW_D2 : ℚ
  AB_FLOW_S8 : ℚ
  AB_FLOW_S9 : ℚ
  AB_FLOW_L2 : ℚ
  AB_FLOW_M2 : ℚ
  AB_FLOW_H2 : ℚ
  AB_FLOW_D3 : ℚ
  AB_FLOW_12 : ℚ
  AB_FLOW_13 : ℚ
  AB_FLOW_L3 : ℚ
  AB_FLOW_M3 : ℚ
  AB_FLOW_H3 : ℚ
  AB_FLOW_D4 : ℚ
  AB_FLOW_16 : ℚ
  AB_FLOW_17 : ℚ
  AB_FLOW_L4 : ℚ
  AB_FLOW_M4 : ℚ
  AB_FLOW_H4 : ℚ
  AB_AMLANES : ℚ
  AB_PMLANES : ℚ
  AB_MDLANES : ℚ
  AB_EVELANE : ℚ
  AB_NTLANES : ℚ
deriving DecidableEq

/-- config.AM_PEAK_FACTOR -/
def AM_PEAK_FACTOR : ℚ := 0.40

/-- config.PM_PEAK_FACTOR -/
def PM_PEAK_FACTOR : ℚ := 0.30

/-- config.AUTO_PCE -/
def AUTO_PCE : ℚ := 1.0

/-- config.LHDT_PCE -/
def LHDT_PCE : ℚ := 1.5

/-- config.MHDT_PCE -/
def MHDT_PCE : ℚ := 2.0

/-- config.HHDT_PCE -/
def HHDT_PCE : ℚ := 2.5

/-- config.TRUCK_PCE_AVG -/
def TRUCK_PCE_AVG : ℚ := (LHDT_PCE + MHDT_PCE + HHDT_PCE) / 3

/-- config.CAPACITY_PER_LANE -/
def CAPACITY_PER_LANE : ℚ := 2000

/-- config.LOS_THRESHOLDS, in dict insertion order; `none` models `float("inf")`
(the threshold of grade F). -/
def LOS_THRESHOLDS : List (String × Option ℚ) :=
  [("A", some 0.35), ("B", some 0.54), ("C", some 0.77),
   ("D", some 0.93), ("E", some 1.00), ("F", none)]

/-- The comparison `vc_ratio <= threshold` of `utils.get_los_from_vc`, where the
threshold may be `float("inf")` (`none`). -/
def vcLe (v : ℚ) (t : Option ℚ) : Bool :=
  match t with
  | none => true
  | some b => decide (v ≤ b)

/-- The `for los_grade, threshold in config.LOS_THRESHOLDS.items()` loop of
`utils.get_los_from_vc`, with the trailing `return "F"` as the base case. -/
def losLoop (v : ℚ) : List (String × Option ℚ) → String
  | [] => "F"
  | (g, t) :: rest => if vcLe v t then g else losLoop v rest

/-- utils.get_los_from_vc.  `none` models a NaN V/C ratio (the `pd.isna` branch). -/
def get_los_from_vc (vc : Option ℚ) : String :=
  match vc with
  | none => "N/A"
  | some v => losLoop v LOS_THRESHOLDS

/-- Sum of the `config.AM_FIELDS["auto"]` columns (AB_FLOW_DA, AB_FLOW_SR, AB_FLOW_S1). -/
def am_auto_flow (r : SegmentRow) : ℚ := r.AB_FLOW_DA + r.AB_FLOW_SR + r.AB_FLOW_S1

/-- Sum of the `config.AM_FIELDS["truck"]` columns (AB_FLOW_LI, AB_FLOW_ME, AB_FLOW_HE). -/
def am_truck_flow (r : SegmentRow) : ℚ := r.AB_FLOW_LI + r.AB_FLOW_ME + r.AB_FLOW_HE

/-- Sum of the `config.PM_FIELDS["auto"]` columns (AB_FLOW_D1, AB_FLOW_S4, AB_FLOW_S5). -/
def pm_auto_flow (r : SegmentRow) : ℚ := r.AB_FLOW_D1 + r.AB_FLOW_S4 + r.AB_FLOW_S5

/-- Sum of the `config.PM_FIELDS["truck"]` columns (AB_FLOW_L1, AB_FLOW_M1, AB_FLOW_H1). -/
def pm_truck_flow (r : SegmentRow) : ℚ := r.AB_FLOW_L1 + r.AB_FLOW_M1 + r.AB_FLOW_H1

/-- Sum of the `config.MD_FIELDS["auto"]` columns (AB_FLOW_D2, AB_FLOW_S8, AB_FLOW_S9). -/
def md_auto_flow (r : SegmentRow) : ℚ := r.AB_FLOW_D2 + r.AB_FLOW_S8 + r.AB_FLOW_S9

/-- Sum of the `config.MD_FIELDS["truck"]` columns (AB_FLOW_L2, AB_FLOW_M2, AB_FLOW_H2). -/
def md_truck_flow (r : SegmentRow) : ℚ := r.AB_FLOW_L2 + r.AB_FLOW_M2 + r.AB_FLOW_H2

/-- Sum of the `config.EVE_FIELDS["auto"]` columns (AB_FLOW_D3, AB_FLOW_12, AB_FLOW_13). -/
def eve_auto_flow (r : SegmentRow) : ℚ := r.AB_FLOW_D3 + r.AB_FLOW_12 + r.AB_FLOW_13

/-- Sum of the `config.EVE_FIELDS["truck"]` columns (AB_FLOW_L3, AB_FLOW_M3, AB_FLOW_H3). -/
def eve_truck_flow (r : SegmentRow) : ℚ := r.AB_FLOW_L3 + r.AB_FLOW_M3 + r.AB_FLOW_H3

/-- Sum of the `config.NT_FIELDS["auto"]` columns (AB_FLOW_D4, AB_FLOW_16, AB_FLOW_17). -/
def nt_auto_flow (r : SegmentRow) : ℚ := r.AB_FLOW_D4 + r.AB_FLOW_16 + r.AB_FLOW_17

/-- Sum of the `config.NT_FIELDS["truck"]` columns (AB_FLOW_L4, AB_FLOW_M4, AB_FLOW_H4). -/
def nt_truck_flow (r : SegmentRow) : ℚ := r.AB_FLOW_L4 + r.AB_FLOW_M4 + r.AB_FLOW_H4

/-- utils.calculate_period_flow, per row: the `config.PERIOD_FIELDS[period]` lookup is
inlined as a dispatch on the five period keys, and the `df[fields].sum(axis=1)` column
sums are the `*_auto_flow` / `*_truck_flow` helpers above.  An unknown period or
flow_type raises ValueError (`Except.error`). -/
def calculate_period_flow (r : SegmentRow) (period flow_type : String) : Except String ℚ :=
  if period = "AM" then
    if flow_type = "total" then .ok (am_auto_flow r + am_truck_flow r)
    else if flow_type = "auto" then .ok (am_auto_flow r)
    else if flow_type = "truck" then .ok (am_truck_flow r)
    else .error ("Invalid flow_type: " ++ flow_type)
  else if period = "PM" then
    if flow_type = "total" then .ok (pm_auto_flow r + pm_truck_flow r)
    else if flow_type = "auto" then .ok (pm_auto_flow r)
    else if flow_type = "truck" then .ok (pm_truck_flow r)
    else .error ("Invalid flow_type: " ++ flow_type)
  else if period = "MD" then
    if flow_type = "total" then .ok (md_auto_flow r + md_truck_flow r)
    else if flow_type = "auto" then .ok (md_auto_flow r)
    else if flow_type = "truck" then .ok (md_truck_flow r)
    else .error ("Invalid flow_type: " ++ flow_type)
  else if period = "EVE" then
    if flow_type = "total" then .ok (eve_auto_flow r + eve_truck_flow r)
    else if flow_type = "auto" then .ok (eve_auto_flow r)
    else if flow_type = "truck" then .ok (eve_truck_flow r)
    else .error ("Invalid flow_type: " ++ flow_type)
  else if period = "NT" then
    if flow_type = "total" then .ok (nt_auto_flow r + nt_truck_flow r)
    else if flow_type = "auto" then .ok (nt_auto_flow r)
    else if flow_type = "truck" then .ok (nt_truck_flow r)
    else .error ("Invalid flow_type: " ++ flow_type)
  else .error ("Invalid period: " ++ period)

/-- utils.calculate_aadt, per row: total AADT is the sum of the five period total
flows, truck AADT the sum of the five period truck flows, and auto AADT is the total
minus the truck AADT. -/
def calculate_aadt (r : SegmentRow) : Except String (ℚ × ℚ × ℚ) := do
  let am_flow ← calculate_period_flow r "AM" "total"
  let pm_flow ← calculate_period_flow r "PM" "total"
  let md_flow ← calculate_period_flow r "MD" "total"
  let eve_flow ← calculate_period_flow r "EVE" "total"
  let nt_flow ← calculate_period_flow r "NT" "total"
  let total_aadt := am_flow + pm_flow + md_flow + eve_flow + nt_flow
  let am_truck ← calculate_period_flow r "AM" "truck"
  let pm_truck ← calculate_period_flow r "PM" "truck"
  let md_truck ← calculate_period_flow r "MD" "truck"
  let eve_truck ← calculate_period_flow r "EVE" "truck"
  let nt_truck ← calculate_period_flow r "NT" "truck"
  let truck_aadt := am_truck + pm_truck + md_truck + eve_truck + nt_truck
  let auto_aadt := total_aadt - truck_aadt
  return (total_aadt, auto_aadt, truck_aadt)

/-- A segment row after `AADTCalculator.calculate_segment_aadt` has added the four
derived AADT columns. -/
structure AadtRow extends SegmentRow where
  TOTAL_AADT : ℚ
  AUTO_AADT : ℚ
  TRUCK_AADT : ℚ
  TRUCK_PCT : ℚ
deriving DecidableEq

/-- One row of `AADTCalculator.calculate_segment_aadt`: attach the `calculate_aadt`
triple and the `np.where(TOTAL_AADT > 0, TRUCK_AADT / TOTAL_AADT * 100, 0)` truck
percentage. -/
def segment_aadt_row (r : SegmentRow) : Except String AadtRow :=
  match calculate_aadt r with
  | .error e => .error e
  | .ok (total_aadt, auto_aadt, truck_aadt) =>
    .ok { toSegmentRow := r
          TOTAL_AADT := total_aadt
          AUTO_AADT := auto_aadt
          TRUCK_AADT := truck_aadt
          TRUCK_PCT := if total_aadt > 0 then truck_aadt / total_aadt * 100 else 0 }

/-- Element-wise map over a DataFrame where the per-row computation may raise;
the first raised error aborts the whole stage, as in pandas. -/
def mapE {α β : Type} (f : α → Except String β) : List α → Except String (List β)
  | [] => .ok []
  | a :: as =>
    match f a, mapE f as with
    | .ok b, .ok bs => .ok (b :: bs)
    | .error e, _ => .error e
    | .ok _, .error e => .error e

/-- AADTCalculator.calculate_segment_aadt over the whole table. -/
def calculate_segment_aadt (df : List SegmentRow) : Except String (List AadtRow) :=
  mapE segment_aadt_row df

theorem mapE_ok_mem {α β : Type} (f : α → Except String β) :
    ∀ (l : List α) (out : List β), mapE f l = .ok out → ∀ b ∈ out, ∃ a ∈ l, f a = .ok b := by
  intro l
  induction l with
  | nil =>
    intro out h b hb
    simp only [mapE] at h
    cases h
    simp at hb
  | cons a as ih =>
    intro out h b hb
    simp only [mapE] at h
    cases hfa : f a with
    | error e => rw [hfa] at h; cases h
    | ok bhead =>
      rw [hfa] at h
      cases hrest : mapE f as with
      | error e => rw [hrest] at h; cases h
      | ok bs =>
        rw [hrest] at h
        cases h
        rcases List.mem_cons.mp hb with hb | hb
        · exact ⟨a, List.mem_cons_self a as, by rw [hfa, hb]⟩
        · rcases ih bs hrest b hb with ⟨a0, ha0, hfa0⟩
          exact ⟨a0, List.mem_cons_of_mem a ha0, hfa0⟩

/-- The total AADT value `calculate_aadt` computes: sum over the five periods of the
period total flow. -/
def total_aadt_of (r : SegmentRow) : ℚ :=
  (am_auto_flow r + am_truck_flow r) + (pm_auto_flow r + pm_truck_flow r) +
    (md_auto_flow r + md_truck_flow r) + (eve_auto_flow r + eve_truck_flow r) +
    (nt_auto_flow r + nt_truck_flow r)

/-- The truck AADT value `calculate_aadt` computes: sum over the five periods of the
period truck flow. -/
def truck_aadt_of (r : SegmentRow) : ℚ :=
  am_truck_flow r + pm_truck_flow r + md_truck_flow r + eve_truck_flow r + nt_truck_flow r

/-- Evaluation lemma: `calculate_aadt` never raises, and returns the five-period
total sum, that sum minus the truck sum, and the truck sum. -/
theorem calculate_aadt_eq (r : SegmentRow) :
    calculate_aadt r =
      .ok (total_aadt_of r, total_aadt_of r - truck_aadt_of r, truck_aadt_of r) := rfl

/-- Evaluation lemma for one row of the AADT stage. -/
theorem segment_aadt_row_eq (s : SegmentRow) :
    segment_aadt_row s =
      .ok { toSegmentRow := s
            TOTAL_AADT := total_aadt_of s
            AUTO_AADT := total_aadt_of s - truck_aadt_of s
            TRUCK_AADT := truck_aadt_of s
            TRUCK_PCT :=
              if total_aadt_of s > 0 then truck_aadt_of s / total_aadt_of s * 100 else 0 } := rfl

/-- All thirty per-period per-class flow cells of the row are non-negative. -/
def SegmentRow.flowsNonneg (s : SegmentRow) : Prop :=
  0 ≤ s.AB_FLOW_DA ∧ 0 ≤ s.AB_FLOW_SR ∧ 0 ≤ s.AB_FLOW_S1 ∧
  0 ≤ s.AB_FLOW_LI ∧ 0 ≤ s.AB_FLOW_ME ∧ 0 ≤ s.AB_FLOW_HE ∧
  0 ≤ s.AB_FLOW_D1 ∧ 0 ≤ s.AB_FLOW_S4 ∧ 0 ≤ s.AB_FLOW_S5 ∧
  0 ≤ s.AB_FLOW_L1 ∧ 0 ≤ s.AB_FLOW_M1 ∧ 0 ≤ s.AB_FLOW_H1 ∧
  0 ≤ s.AB_FLOW_D2 ∧ 0 ≤ s.AB_FLOW_S8 ∧ 0 ≤ s.AB_FLOW_S9 ∧
  0 ≤ s.AB_FLOW_L2 ∧ 0 ≤ s.AB_FLOW_M2 ∧ 0 ≤ s.AB_FLOW_H2 ∧
  0 ≤ s.AB_FLOW_D3 ∧ 0 ≤ s.AB_FLOW_12 ∧ 0 ≤ s.AB_FLOW_13 ∧
  0 ≤ s.AB_FLOW_L3 ∧ 0 ≤ s.AB_FLOW_M3 ∧ 0 ≤ s.AB_FLOW_H3 ∧
  0 ≤ s.AB_FLOW_D4 ∧ 0 ≤ s.AB_FLOW_16 ∧ 0 ≤ s.AB_FLOW_17 ∧
  0 ≤ s.AB_FLOW_L4 ∧ 0 ≤ s.AB_FLOW_M4 ∧ 0 ≤ s.AB_FLOW_H4

theorem truck_aadt_nonneg_le_total (s : SegmentRow) (h : s.flowsNonneg) :
    0 ≤ truck_aadt_of s ∧ truck_aadt_of s ≤ total_aadt_of s := by
  obtain ⟨h1, h2, h3, h4, h5, h6, h7, h8, h9, h10, h11, h12, h13, h14, h15, h16, h17,
    h18, h19, h20, h21, h22, h23, h24, h25, h26, h27, h28, h29, h30⟩ := h
  unfold truck_aadt_of total_aadt_of am_auto_flow am_truck_flow pm_auto_flow pm_truck_flow
    md_auto_flow md_truck_flow eve_auto_flow eve_truck_flow nt_auto_flow nt_truck_flow
  constructor <;> linarith

/-- A row used in the concrete witnesses: direction `d`, facility type `ty`, every
auto-class flow cell equal to `auto`, every truck-class flow cell equal to `truck`,
AM lane count `amL`, PM lane count `pmL` (the other lane columns share `amL`). -/
def mkSeg (d ty : String) (auto truck amL pmL : ℚ) : SegmentRow :=
  { DIRECT := d, TYPE := ty
    AB_FLOW_DA := auto, AB_FLOW_SR := auto, AB_FLOW_S1 := auto
    AB_FLOW_LI := truck, AB_FLOW_ME := truck, AB_FLOW_HE := truck
    AB_FLOW_D1 := auto, AB_FLOW_S4 := auto, AB_FLOW_S5 := auto
    AB_FLOW_L1 := truck, AB_FLOW_M1 := truck, AB_FLOW_H1 := truck
    AB_FLOW_D2 := auto, AB_FLOW_S8 := auto, AB_FLOW_S9 := auto
    AB_FLOW_L2 := truck, AB_FLOW_M2 := truck, AB_FLOW_H2 := truck
    AB_FLOW_D3 := auto, AB_FLOW_12 := auto, AB_FLOW_13 := auto
    AB_FLOW_L3 := truck, AB_FLOW_M3 := truck, AB_FLOW_H3 := truck
    AB_FLOW_D4 := auto, AB_FLOW_16 := auto, AB_FLOW_17 := auto
    AB_FLOW_L4 := truck, AB_FLOW_M4 := truck, AB_FLOW_H4 := truck
    AB_AMLANES := amL, AB_PMLANES := pmL, AB_MDLANES := amL
    AB_EVELANE := amL, AB_NTLANES := amL }

/-- Concrete input row for the witnesses: 10 in each auto cell, 5 in each truck cell,
4 AM lanes, 4 PM lanes. -/
def seg0 : SegmentRow := mkSeg "N" "ML" 10 5 4 4

/-- The AADT-stage output row of `seg0`. -/
def aadtRow0 : AadtRow :=
  { toSegmentRow := seg0
    TOTAL_AADT := 225
    AUTO_AADT := 150
    TRUCK_AADT := 75
    TRUCK_PCT := 100 / 3 }

theorem calculate_segment_aadt_seg0 : calculate_segment_aadt [seg0] = .ok [aadtRow0] := by
  rw [calculate_segment_aadt]
  show mapE segment_aadt_row [seg0] = .ok [aadtRow0]
  rw [mapE, segment_aadt_row_eq, mapE]
  norm_num [total_aadt_of, truck_aadt_of, am_auto_flow, am_truck_flow, pm_auto_flow,
    pm_truck_flow, md_auto_flow, md_truck_flow, eve_auto_flow, eve_truck_flow,
    nt_auto_flow, nt_truck_flow, seg0, mkSeg, aadtRow0]

/-- C1: for every segment row produced by the AADT stage, the total AADT equals the
auto AADT plus the truck AADT exactly, because the auto AADT is computed as the total
minus the truck AADT rather than summed independently. -/
theorem C1_total_aadt_identity (df : List SegmentRow) (out : List AadtRow)
    (hout : calculate_segment_aadt df = .ok out) :
    ∀ r ∈ out, r.TOTAL_AADT = r.AUTO_AADT + r.TRUCK_AADT := by
  intro r hr
  obtain ⟨s, _, hfs⟩ := mapE_ok_mem segment_aadt_row df out hout r hr
  rw [segment_aadt_row_eq] at hfs
  cases hfs
  simp only
  ring

/-- Witness for C1 at the concrete one-row table `[seg0]`. -/
theorem C1_total_aadt_identity_witness :
    aadtRow0.TOTAL_AADT = aadtRow0.AUTO_AADT + aadtRow0.TRUCK_AADT :=
  C1_total_aadt_identity [seg0] [aadtRow0] calculate_segment_aadt_seg0 aadtRow0
    (List.mem_singleton.mpr rfl)

/-- C2: the AADT stage sets the truck percentage to 100 * TRUCK_AADT / TOTAL_AADT when
TOTAL_AADT > 0 and to 0 when TOTAL_AADT = 0 (the `np.where` guard is on the denominator
TOTAL_AADT), and for non-negative input flows the percentage lies in [0, 100]. -/
theorem C2_truck_pct (df : List SegmentRow) (out : List AadtRow)
    (hout : calculate_segment_aadt df = .ok out)
    (hpos : ∀ s ∈ df, s.flowsNonneg) :
    ∀ r ∈ out,
      (r.TOTAL_AADT > 0 → r.TRUCK_PCT = 100 * r.TRUCK_AADT / r.TOTAL_AADT) ∧
      (r.TOTAL_AADT = 0 → r.TRUCK_PCT = 0) ∧
      0 ≤ r.TRUCK_PCT ∧ r.TRUCK_PCT ≤ 100 := by
  intro r hr
  obtain ⟨s, hs, hfs⟩ := mapE_ok_mem segment_aadt_row df out hout r hr
  rw [segment_aadt_row_eq] at hfs
  cases hfs
  obtain ⟨hk, hkt⟩ := truck_aadt_nonneg_le_total s (hpos s hs)
  simp only
  refine ⟨?_, ?_, ?_, ?_⟩
  · intro ht
    rw [if_pos ht]
    field_simp
    ring
  · intro ht
    rw [if_neg (by rw [ht]; exact lt_irrefl 0)]
  · split_ifs with ht
    · positivity
    · exact le_refl 0
  · split_ifs with ht
    · calc truck_aadt_of s / total_aadt_of s * 100
          ≤ 1 * 100 := by
            have h1 : truck_aadt_of s / total_aadt_of s ≤ 1 := (div_le_one ht).mpr hkt
            nlinarith
        _ = 100 := by norm_num
    · norm_num

/-- Witness for C2 at the concrete one-row table `[seg0]`. -/
theorem C2_truck_pct_witness :
    (aadtRow0.TOTAL_AADT > 0 → aadtRow0.TRUCK_PCT = 100 * aadtRow0.TRUCK_AADT / aadtRow0.TOTAL_AADT) ∧
    (aadtRow0.TOTAL_AADT = 0 → aadtRow0.TRUCK_PCT = 0) ∧
    0 ≤ aadtRow0.TRUCK_PCT ∧ aadtRow0.TRUCK_PCT ≤ 100 :=
  C2_truck_pct [seg0] [aadtRow0] calculate_segment_aadt_seg0
    (by
      intro s hs
      rw [List.mem_singleton] at hs
      subst hs
      refine ⟨?_, ?_, ?_, ?_, ?_, ?_, ?_, ?_, ?_, ?_, ?_, ?_, ?_, ?_, ?_, ?_, ?_, ?_,
        ?_, ?_, ?_, ?_, ?_, ?_, ?_, ?_, ?_, ?_, ?_, ?_⟩ <;> norm_num [seg0, mkSeg])
    aadtRow0 (List.mem_singleton.mpr rfl)

/-- Evaluation lemma: `get_los_from_vc` on a real (non-NaN) V/C ratio is the nested
chain of inclusive threshold tests from `config.LOS_THRESHOLDS`. -/
theorem get_los_some (v : ℚ) :
    get_los_from_vc (some v) =
      if v ≤ 0.35 then "A"
      else if v ≤ 0.54 then "B"
      else if v ≤ 0.77 then "C"
      else if v ≤ 0.93 then "D"
      else if v ≤ 1.00 then "E"
      else "F" := by
  simp [get_los_from_vc, LOS_THRESHOLDS, losLoop, vcLe]

/-- Position of a LOS grade in the ordering A < B < C < D < E < F ("N/A" last); used to
state that the grade is monotone in the V/C ratio. -/
def losRank (g : String) : ℕ :=
  if g = "A" then 0
  else if g = "B" then 1
  else if g = "C" then 2
  else if g = "D" then 3
  else if g = "E" then 4
  else if g = "F" then 5
  else 6

/-- C3: `get_los_from_vc` grades by the smallest inclusive threshold (A up to 0.35,
B up to 0.54, C up to 0.77, D up to 0.93, E up to 1.00, otherwise F), returns "N/A"
exactly on NaN input (`none`), and is monotone non-decreasing in the V/C ratio. -/
theorem C3_los_monotone (v w : ℚ) (hvw : v ≤ w) :
    losRank (get_los_from_vc (some v)) ≤ losRank (get_los_from_vc (some w)) ∧
    get_los_from_vc none = "N/A" ∧
    get_los_from_vc (some v) ≠ "N/A" ∧
    get_los_from_vc (some 0.30) = "A" ∧
    get_los_from_vc (some 0.50) = "B" ∧
    get_los_from_vc (some 0.77) = "C" ∧
    get_los_from_vc (some 0.93) = "D" ∧
    get_los_from_vc (some 1.00) = "E" ∧
    get_los_from_vc (some 1.50) = "F" := by
  refine ⟨?_, rfl, ?_, ?_, ?_, ?_, ?_, ?_, ?_⟩
  · rw [get_los_some v, get_los_some w]
    split_ifs <;> simp_all [losRank] <;> linarith
  · rw [get_los_some v]
    split_ifs <;> simp
  all_goals rw [get_los_some]; norm_num

/-- Witness for C3 at the pair v = 0.30, w = 1.50. -/
theorem C3_los_monotone_witness :
    losRank (get_los_from_vc (some 0.30)) ≤ losRank (get_los_from_vc (some 1.50)) ∧
    get_los_from_vc none = "N/A" ∧
    get_los_from_vc (some 0.30) ≠ "N/A" ∧
    get_los_from_vc (some 0.30) = "A" ∧
    get_los_from_vc (some 0.50) = "B" ∧
    get_los_from_vc (some 0.77) = "C" ∧
    get_los_from_vc (some 0.93) = "D" ∧
    get_los_from_vc (some 1.00) = "E" ∧
    get_los_from_vc (some 1.50) = "F" :=
  C3_los_monotone 0.30 1.50 (by norm_num)

/-- utils.calculate_peak_hour_flow: the period flow times the fixed AM or PM peaking
factor; any other period raises ValueError. -/
def calculate_peak_hour_flow (period_flow : ℚ) (period : String) : Except String ℚ :=
  if period = "AM" then .ok (period_flow * AM_PEAK_FACTOR)
  else if period = "PM" then .ok (period_flow * PM_PEAK_FACTOR)
  else .error "Period must be AM or PM"

/-- C4: for every period flow, the peak-hour conversion multiplies by 0.40 for AM and
by 0.30 for PM (20000 maps to 8000 and 6000 respectively), and every period outside
AM and PM raises an invalid-argument error. -/
theorem C4_peak_hour_flow (flow : ℚ) (p : String) (hA : p ≠ "AM") (hP : p ≠ "PM") :
    calculate_peak_hour_flow flow "AM" = .ok (flow * 0.40) ∧
    calculate_peak_hour_flow flow "PM" = .ok (flow * 0.30) ∧
    calculate_peak_hour_flow 20000 "AM" = .ok 8000 ∧
    calculate_peak_hour_flow 20000 "PM" = .ok 6000 ∧
    calculate_peak_hour_flow flow p = .error "Period must be AM or PM" := by
  have hAM : calculate_peak_hour_flow 20000 "AM" = .ok ((20000 : ℚ) * AM_PEAK_FACTOR) := rfl
  have hPM : calculate_peak_hour_flow 20000 "PM" = .ok ((20000 : ℚ) * PM_PEAK_FACTOR) := rfl
  refine ⟨rfl, rfl, by rw [hAM]; norm_num [AM_PEAK_FACTOR],
    by rw [hPM]; norm_num [PM_PEAK_FACTOR], ?_⟩
  rw [calculate_peak_hour_flow, if_neg hA, if_neg hP]

/-- Witness for C4 at flow = 20000 and the invalid period "MD". -/
theorem C4_peak_hour_flow_witness :
    calculate_peak_hour_flow 20000 "AM" = .ok (20000 * 0.40) ∧
    calculate_peak_hour_flow 20000 "PM" = .ok (20000 * 0.30) ∧
    calculate_peak_hour_flow 20000 "AM" = .ok 8000 ∧
    calculate_peak_hour_flow 20000 "PM" = .ok 6000 ∧
    calculate_peak_hour_flow 20000 "MD" = .error "Period must be AM or PM" :=
  C4_peak_hour_flow 20000 "MD" (by decide) (by decide)

/-- utils.calculate_pce_flow: PCE flow is the total flow plus the truck flow. -/
def calculate_pce_flow (total_flow truck_flow : ℚ) : ℚ := total_flow + truck_flow

/-- C5: the PCE flow is total plus truck, and whenever total = auto + truck it equals
auto weighted at AUTO_PCE = 1.0 plus truck weighted at TRUCK_PCE_AVG = 2.0; at total
10000 and truck 1000 the result is 11000. -/
theorem C5_pce_flow (total_flow truck_flow auto_flow : ℚ)
    (h : total_flow = auto_flow + truck_flow) :
    calculate_pce_flow total_flow truck_flow = total_flow + truck_flow ∧
    calculate_pce_flow total_flow truck_flow =
      auto_flow * AUTO_PCE + truck_flow * TRUCK_PCE_AVG ∧
    calculate_pce_flow 10000 1000 = 11000 := by
  refine ⟨rfl, ?_, by norm_num [calculate_pce_flow]⟩
  rw [calculate_pce_flow, h, AUTO_PCE, TRUCK_PCE_AVG, LHDT_PCE, MHDT_PCE, HHDT_PCE]
  ring

/-- Witness for C5 at total = 10000, truck = 1000, auto = 9000. -/
theorem C5_pce_flow_witness :
    calculate_pce_flow 10000 1000 = 10000 + 1000 ∧
    calculate_pce_flow 10000 1000 = 9000 * AUTO_PCE + 1000 * TRUCK_PCE_AVG ∧
    calculate_pce_flow 10000 1000 = 11000 :=
  C5_pce_flow 10000 1000 9000 (by norm_num)

/-- A segment row after `PeakHourAnalyzer.calculate_segment_peak_flows` has added the
six peak-hour flow columns (the pipeline of main.py runs the peak stage on the AADT
stage output). -/
structure PeakRow extends AadtRow where
  AM_PEAK_TOTAL : ℚ
  AM_PEAK_AUTO : ℚ
  AM_PEAK_TRUCK : ℚ
  PM_PEAK_TOTAL : ℚ
  PM_PEAK_AUTO : ℚ
  PM_PEAK_TRUCK : ℚ
deriving DecidableEq

/-- One row of `PeakHourAnalyzer.calculate_segment_peak_flows`: for each period AM, PM
and each flow class total, auto, truck, the period flow converted by
`calculate_peak_hour_flow`. -/
def segment_peak_row (r : AadtRow) : Except String PeakRow := do
  let am_total ← calculate_period_flow r.toSegmentRow "AM" "total"
  let am_peak_total ← calculate_peak_hour_flow am_total "AM"
  let am_auto ← calculate_period_flow r.toSegmentRow "AM" "auto"
  let am_peak_auto ← calculate_peak_hour_flow am_auto "AM"
  let am_truck ← calculate_period_flow r.toSegmentRow "AM" "truck"
  let am_peak_truck ← calculate_peak_hour_flow am_truck "AM"
  let pm_total ← calculate_period_flow r.toSegmentRow "PM" "total"
  let pm_peak_total ← calculate_peak_hour_flow pm_total "PM"
  let pm_auto ← calculate_period_flow r.toSegmentRow "PM" "auto"
  let pm_peak_auto ← calculate_peak_hour_flow pm_auto "PM"
  let pm_truck ← calculate_period_flow r.toSegmentRow "PM" "truck"
  let pm_peak_truck ← calculate_peak_hour_flow pm_truck "PM"
  return { toAadtRow := r
           AM_PEAK_TOTAL := am_peak_total
           AM_PEAK_AUTO := am_peak_auto
           AM_PEAK_TRUCK := am_peak_truck
           PM_PEAK_TOTAL := pm_peak_total
           PM_PEAK_AUTO := pm_peak_auto
           PM_PEAK_TRUCK := pm_peak_truck }

/-- PeakHourAnalyzer.calculate_segment_peak_flows over the whole table. -/
def calculate_segment_peak_flows (df : List AadtRow) : Except String (List PeakRow) :=
  mapE segment_peak_row df

/-- utils.calculate_capacity: lane count times `config.CAPACITY_PER_LANE`. -/
def calculate_capacity (num_lanes : ℚ) : ℚ := num_lanes * CAPACITY_PER_LANE

/-- utils.calculate_vc_ratio, scalar branch: `pce_flow / capacity if capacity > 0 else
np.nan`; `none` models NaN. -/
def calculate_vc (pce_flow capacity : ℚ) : Option ℚ :=
  if capacity > 0 then some (pce_flow / capacity) else none

/-- utils.calculate_vc_ratio, `pd.Series` branch, element-wise:
`pce_flow.divide(capacity.replace(0, np.nan))` is NaN exactly where the capacity cell
is 0 and the exact quotient elsewhere. -/
def calculate_vc_cell (pce_flow capacity : ℚ) : Option ℚ :=
  if capacity = 0 then none else some (pce_flow / capacity)

/-- A segment row after `CapacityAnalyzer.calculate_all_periods_capacity` has added the
four capacity columns for each of AM and PM.  `AM_VC` / `PM_VC` are the columns
AM_VC_RATIO / PM_VC_RATIO of the source, with `none` for NaN. -/
structure CapRow extends PeakRow where
  AM_PCE_FLOW : ℚ
  AM_CAPACITY : ℚ
  AM_VC : Option ℚ
  AM_LOS : String
  PM_PCE_FLOW : ℚ
  PM_CAPACITY : ℚ
  PM_VC : Option ℚ
  PM_LOS : String
deriving DecidableEq

/-- One row of `CapacityAnalyzer.calculate_segment_capacity` run for AM and then PM
(as `calculate_all_periods_capacity` does): PCE flow from the period peak total and
truck flows, capacity from the period lane column of `config.LANE_FIELDS` (AB_AMLANES
for AM, AB_PMLANES for PM), the Series-branch V/C ratio, and the LOS grade.  The
period-validation and missing-column checks of the source always pass here: the stage
is called with the literals "AM" and "PM" and the typed row carries every column. -/
def cap_row (r : PeakRow) : CapRow :=
  let am_pce := calculate_pce_flow r.AM_PEAK_TOTAL r.AM_PEAK_TRUCK
  let am_cap := calculate_capacity r.AB_AMLANES
  let am_vc := calculate_vc_cell am_pce am_cap
  let pm_pce := calculate_pce_flow r.PM_PEAK_TOTAL r.PM_PEAK_TRUCK
  let pm_cap := calculate_capacity r.AB_PMLANES
  let pm_vc := calculate_vc_cell pm_pce pm_cap
  { toPeakRow := r
    AM_PCE_FLOW := am_pce
    AM_CAPACITY := am_cap
    AM_VC := am_vc
    AM_LOS := get_los_from_vc am_vc
    PM_PCE_FLOW := pm_pce
    PM_CAPACITY := pm_cap
    PM_VC := pm_vc
    PM_LOS := get_los_from_vc pm_vc }

/-- CapacityAnalyzer.calculate_all_periods_capacity over the whole table. -/
def calculate_all_periods_capacity (df : List PeakRow) : List CapRow :=
  df.map cap_row

/-- C6: the scalar V/C helper returns NaN (`none`) at capacity 0 instead of raising or
returning infinity, and in the capacity stage output the V/C ratio column is NaN
exactly on the rows whose capacity column is 0, for both periods. -/
theorem C6_vc_nan_iff_capacity_zero (df : List PeakRow) (p : ℚ) (r : CapRow)
    (hr : r ∈ calculate_all_periods_capacity df) :
    calculate_vc p 0 = none ∧
    (r.AM_VC = none ↔ r.AM_CAPACITY = 0) ∧
    (r.PM_VC = none ↔ r.PM_CAPACITY = 0) := by
  refine ⟨by rw [calculate_vc, if_neg (lt_irrefl 0)], ?_, ?_⟩ <;>
  · obtain ⟨s, _, rfl⟩ := List.mem_map.mp hr
    rw [cap_row]
    simp only [calculate_vc_cell]
    split_ifs with h <;> simp [h]

/-- Concrete witness input for C6: same flows as `seg0` but zero AM lanes. -/
def seg1 : SegmentRow := mkSeg "N" "ML" 10 5 0 4

/-- An AADT-stage row over `seg1`, used to build the C6 witness. -/
def aadtRow1 : AadtRow :=
  { toSegmentRow := seg1
    TOTAL_AADT := 225
    AUTO_AADT := 150
    TRUCK_AADT := 75
    TRUCK_PCT := 100 / 3 }

/-- A peak-stage row over `aadtRow1`, used to build the C6 witness. -/
def peakRow1 : PeakRow :=
  { toAadtRow := aadtRow1
    AM_PEAK_TOTAL := 18
    AM_PEAK_AUTO := 12
    AM_PEAK_TRUCK := 6
    PM_PEAK_TOTAL := 27 / 2
    PM_PEAK_AUTO := 9
    PM_PEAK_TRUCK := 9 / 2 }

/-- Witness for C6 at the one-row table `[peakRow1]` (AM capacity 0, PM capacity
positive) and pce flow 5000. -/
theorem C6_vc_nan_iff_capacity_zero_witness :
    calculate_vc 5000 0 = none ∧
    ((cap_row peakRow1).AM_VC = none ↔ (cap_row peakRow1).AM_CAPACITY = 0) ∧
    ((cap_row peakRow1).PM_VC = none ↔ (cap_row peakRow1).PM_CAPACITY = 0) :=
  C6_vc_nan_iff_capacity_zero [peakRow1] 5000 (cap_row peakRow1)
    (by rw [calculate_all_periods_capacity, List.map_singleton]; exact List.mem_singleton.mpr rfl)

/-- A segment row after `TruckAnalyzer.calculate_segment_truck_metrics` has added the
three truck metric columns (the pipeline of main.py runs the truck stage on the
capacity stage output).  `AM_TRUCK_R` / `PM_TRUCK_R` are the columns AM_TRUCK_RATIO /
PM_TRUCK_RATIO of the source. -/
structure TruckRow extends CapRow where
  TRUCK_INTENSITY : ℚ
  AM_TRUCK_R : ℚ
  PM_TRUCK_R : ℚ
deriving DecidableEq

/-- One row of `TruckAnalyzer.calculate_segment_truck_metrics`: the truck intensity is
`np.where(AB_AMLANES > 0, TRUCK_AADT / AB_AMLANES, 0)` — always normalised by the AM
lane column — and the two peak truck percentages are guarded on their period peak
total.  The TRUCK_AADT / TRUCK_PCT and lane-column presence checks of the source
always pass on the typed row. -/
def truck_metrics_row (r : CapRow) : TruckRow :=
  { toCapRow := r
    TRUCK_INTENSITY := if r.AB_AMLANES > 0 then r.TRUCK_AADT / r.AB_AMLANES else 0
    AM_TRUCK_R := if r.AM_PEAK_TOTAL > 0 then r.AM_PEAK_TRUCK / r.AM_PEAK_TOTAL * 100 else 0
    PM_TRUCK_R := if r.PM_PEAK_TOTAL > 0 then r.PM_PEAK_TRUCK / r.PM_PEAK_TOTAL * 100 else 0 }

/-- TruckAnalyzer.calculate_segment_truck_metrics over the whole table. -/
def calculate_segment_truck_metrics (df : List CapRow) : List TruckRow :=
  df.map truck_metrics_row

/-- Replace only the PM lane count of a capacity-stage row, leaving every other
column unchanged. -/
def setPmLanes (r : CapRow) (l : ℚ) : CapRow :=
  { r with AB_PMLANES := l }

/-- C9: the truck stage sets TRUCK_INTENSITY to TRUCK_AADT / AM lane count when the AM
lane count is positive and to 0 otherwise, and the metric never depends on the PM lane
count: changing AB_PMLANES leaves TRUCK_INTENSITY unchanged. -/
theorem C9_truck_intensity_am_lanes (df : List CapRow) (t : TruckRow)
    (ht : t ∈ calculate_segment_truck_metrics df) (l : ℚ) :
    t.TRUCK_INTENSITY = (if t.AB_AMLANES > 0 then t.TRUCK_AADT / t.AB_AMLANES else 0) ∧
    ∀ r : CapRow,
      (truck_metrics_row (setPmLanes r l)).TRUCK_INTENSITY =
        (truck_metrics_row r).TRUCK_INTENSITY := by
  constructor
  · obtain ⟨s, _, rfl⟩ := List.mem_map.mp ht
    rfl
  · intro r
    rfl

/-- A concrete capacity-stage row used by the C7, C8 and C9 witnesses. -/
def capRow2 : CapRow :=
  { toPeakRow := peakRow1
    AM_PCE_FLOW := 7200
    AM_CAPACITY := 8000
    AM_VC := some 0.9
    AM_LOS := "D"
    PM_PCE_FLOW := 18
    PM_CAPACITY := 8000
    PM_VC := some (9 / 4000)
    PM_LOS := "A" }

/-- Witness for C9 at the one-row table `[capRow2]` and PM lane count 99. -/
theorem C9_truck_intensity_am_lanes_witness :
    (truck_metrics_row capRow2).TRUCK_INTENSITY =
      (if (truck_metrics_row capRow2).AB_AMLANES > 0 then
        (truck_metrics_row capRow2).TRUCK_AADT / (truck_metrics_row capRow2).AB_AMLANES
      else 0) ∧
    ∀ r : CapRow,
      (truck_metrics_row (setPmLanes r 99)).TRUCK_INTENSITY =
        (truck_metrics_row r).TRUCK_INTENSITY :=
  C9_truck_intensity_am_lanes [capRow2] (truck_metrics_row capRow2)
    (by rw [calculate_segment_truck_metrics, List.map_singleton]
        exact List.mem_singleton.mpr rfl) 99

/-- Mean of a numeric column (`Series.mean` on a NaN-free column). -/
def listMean (l : List ℚ) : ℚ := l.sum / l.length

/-- Minimum of a numeric column; only used on non-empty groups. -/
def listMin : List ℚ → ℚ
  | [] => 0
  | a :: as => as.foldl min a

/-- Maximum of a numeric column; only used on non-empty groups. -/
def listMax : List ℚ → ℚ
  | [] => 0
  | a :: as => as.foldl max a

/-- Mean of a column that may hold NaN cells: pandas `Series.mean` skips NaN and is
itself NaN when every cell is NaN. -/
def optMean (l : List (Option ℚ)) : Option ℚ :=
  let vs := l.filterMap id
  if vs.length = 0 then none else some (listMean vs)

/-- Minimum of a column that may hold NaN cells (`Series.min` skips NaN). -/
def optMin (l : List (Option ℚ)) : Option ℚ :=
  match l.filterMap id with
  | [] => none
  | a :: as => some (as.foldl min a)

/-- Maximum of a column that may hold NaN cells (`Series.max` skips NaN). -/
def optMax (l : List (Option ℚ)) : Option ℚ :=
  match l.filterMap id with
  | [] => none
  | a :: as => some (as.foldl max a)

/-- Stable insertion sort placing `a` before the first element it is `ge`-related to;
used for descending orderings. -/
def insertGe {α : Type} (ge : α → α → Bool) (a : α) : List α → List α
  | [] => [a]
  | b :: bs => if ge a b then a :: b :: bs else b :: insertGe ge a bs

/-- Stable sort by the descending comparison `ge`. -/
def sortGe {α : Type} (ge : α → α → Bool) : List α → List α
  | [] => []
  | a :: as => insertGe ge a (sortGe ge as)

/-- pandas `Series.value_counts`: the distinct values with their multiplicities,
ordered by descending count (tie order implementation-defined; here first occurrence
first, as the tie-break is documented to be unspecified). -/
def value_counts (l : List String) : List (String × ℕ) :=
  let uniq := l.foldl (fun acc s => if s ∈ acc then acc else acc ++ [s]) []
  sortGe (fun a b => decide (b.2 ≤ a.2)) (uniq.map (fun s => (s, l.count s)))

/-- The row mask `(df[config.DIRECTION_FIELD] == direction) & (df[config.TYPE_FIELD]
== facility_type)` shared by the three group-level methods. -/
def groupMask (direction facility_type : String) (direct ty : String) : Bool :=
  direct == direction && ty == facility_type

/-- Result record of `AADTCalculator.calculate_group_average_aadt`. -/
structure AadtGroup where
  direction : String
  type : String
  num_segments : ℕ
  avg_total_aadt : ℚ
  avg_auto_aadt : ℚ
  avg_truck_aadt : ℚ
  avg_truck_pct : ℚ
  min_aadt : ℚ
  max_aadt : ℚ
deriving DecidableEq

/-- AADTCalculator.calculate_group_average_aadt: filter the rows matching (direction,
facility type); `None` when the filter is empty, otherwise the group averages and the
TOTAL_AADT range. -/
def calculate_group_average_aadt (df : List AadtRow) (direction facility_type : String) :
    Option AadtGroup :=
  let group := df.filter (fun r => groupMask direction facility_type r.DIRECT r.TYPE)
  if group.length = 0 then none
  else some
    { direction := direction
      type := facility_type
      num_segments := group.length
      avg_total_aadt := listMean (group.map (fun r => r.TOTAL_AADT))
      avg_auto_aadt := listMean (group.map (fun r => r.AUTO_AADT))
      avg_truck_aadt := listMean (group.map (fun r => r.TRUCK_AADT))
      avg_truck_pct := listMean (group.map (fun r => r.TRUCK_PCT))
      min_aadt := listMin (group.map (fun r => r.TOTAL_AADT))
      max_aadt := listMax (group.map (fun r => r.TOTAL_AADT)) }

/-- Result record of `CapacityAnalyzer.calculate_group_capacity`.  `avg_vc`, `min_vc`,
`max_vc` are the avg/min/max of the {period}_VC_RATIO column with NaN skipped. -/
structure CapGroup where
  direction : String
  type : String
  period : String
  num_segments : ℕ
  avg_pce_flow : ℚ
  avg_capacity : ℚ
  avg_vc : Option ℚ
  min_vc : Option ℚ
  max_vc : Option ℚ
  dominant_los : String
  los_counts : List (String × ℕ)
deriving DecidableEq

/-- CapacityAnalyzer.calculate_group_capacity: ValueError on a period outside AM, PM
(the required-column check always passes on the typed row); then filter the rows
matching (direction, facility type) and return `None` (`Except.ok none`) on an empty
group, otherwise the group statistics with the modal (`value_counts().idxmax()`) LOS
grade. -/
def calculate_group_capacity (df : List CapRow) (direction facility_type period : String) :
    Except String (Option CapGroup) :=
  if ¬(period = "AM" ∨ period = "PM") then
    .error ("Period " ++ period ++ " wrong. Should be AM or PM.")
  else
    let group := df.filter (fun r => groupMask direction facility_type r.DIRECT r.TYPE)
    if group.length = 0 then .ok none
    else
      let vcs := group.map (fun r => if period = "AM" then r.AM_VC else r.PM_VC)
      let grades := group.map (fun r => if period = "AM" then r.AM_LOS else r.PM_LOS)
      let counts := value_counts grades
      .ok (some
        { direction := direction
          type := facility_type
          period := period
          num_segments := group.length
          avg_pce_flow :=
            listMean (group.map (fun r => if period = "AM" then r.AM_PCE_FLOW else r.PM_PCE_FLOW))
          avg_capacity :=
            listMean (group.map (fun r => if period = "AM" then r.AM_CAPACITY else r.PM_CAPACITY))
          avg_vc := optMean vcs
          min_vc := optMin vcs
          max_vc := optMax vcs
          dominant_los := match counts with | [] => "N/A" | (g, _) :: _ => g
          los_counts := counts })

/-- Result record of `TruckAnalyzer.calculate_group_truck_metrics`.  `avg_am_truck_r` /
`avg_pm_truck_r` are the means of the AM_TRUCK_RATIO / PM_TRUCK_RATIO columns. -/
structure TruckGroup where
  direction : String
  type : String
  num_segments : ℕ
  avg_truck_aadt : ℚ
  avg_truck_pct : ℚ
  avg_truck_intensity : ℚ
  avg_am_truck_r : ℚ
  avg_pm_truck_r : ℚ
  min_truck_pct : ℚ
  max_truck_pct : ℚ
deriving DecidableEq

/-- TruckAnalyzer.calculate_group_truck_metrics: the required-column check always
passes on the typed row; filter the rows matching (direction, facility type); `None`
when the filter is empty, otherwise the group truck statistics. -/
def calculate_group_truck_metrics (df : List TruckRow) (direction facility_type : String) :
    Option TruckGroup :=
  let group := df.filter (fun r => groupMask direction facility_type r.DIRECT r.TYPE)
  if group.length = 0 then none
  else some
    { direction := direction
      type := facility_type
      num_segments := group.length
      avg_truck_aadt := listMean (group.map (fun r => r.TRUCK_AADT))
      avg_truck_pct := listMean (group.map (fun r => r.TRUCK_PCT))
      avg_truck_intensity := listMean (group.map (fun r => r.TRUCK_INTENSITY))
      avg_am_truck_r := listMean (group.map (fun r => r.AM_TRUCK_R))
      avg_pm_truck_r := listMean (group.map (fun r => r.PM_TRUCK_R))
      min_truck_pct := listMin (group.map (fun r => r.TRUCK_PCT))
      max_truck_pct := listMax (group.map (fun r => r.TRUCK_PCT)) }

/-- C8: for a (direction, facility type) combination matching zero rows, each of the
three group-level aggregations returns `None` — for the capacity one, `Except.ok none`
for any valid period — and none of them raises. -/
theorem C8_empty_group_none (dfA : List AadtRow) (dfC : List CapRow) (dfT : List TruckRow)
    (d ft period : String) (hp : period = "AM" ∨ period = "PM")
    (hA : dfA.filter (fun r => groupMask d ft r.DIRECT r.TYPE) = [])
    (hC : dfC.filter (fun r => groupMask d ft r.DIRECT r.TYPE) = [])
    (hT : dfT.filter (fun r => groupMask d ft r.DIRECT r.TYPE) = []) :
    calculate_group_average_aadt dfA d ft = none ∧
    calculate_group_capacity dfC d ft period = .ok none ∧
    calculate_group_truck_metrics dfT d ft = none := by
  refine ⟨?_, ?_, ?_⟩
  · rw [calculate_group_average_aadt]
    simp only [hA, List.length_nil, if_true]
  · rw [calculate_group_capacity, if_neg (not_not_intro hp)]
    simp only [hC, List.length_nil, if_true]
  · rw [calculate_group_truck_metrics]
    simp only [hT, List.length_nil, if_true]

/-- Witness for C8: the direction "E" with facility type "HV" matches no row of the
concrete one-row tables (whose single rows are northbound main lanes). -/
theorem C8_empty_group_none_witness :
    calculate_group_average_aadt [aadtRow0] "E" "HV" = none ∧
    calculate_group_capacity [capRow2] "E" "HV" "AM" = .ok none ∧
    calculate_group_truck_metrics [truck_metrics_row capRow2] "E" "HV" = none :=
  C8_empty_group_none [aadtRow0] [capRow2] [truck_metrics_row capRow2] "E" "HV" "AM"
    (Or.inl rfl)
    (by simp [groupMask, aadtRow0, seg0, mkSeg])
    (by simp [groupMask, capRow2, peakRow1, aadtRow1, seg1, mkSeg])
    (by simp [groupMask, truck_metrics_row, capRow2, peakRow1, aadtRow1, seg1, mkSeg])

/-- A capacity-stage DataFrame together with its pandas column index: `rows` carries
the cells the capacity analyzer reads through fixed names, and `columns` is the label
list used by the column-presence checks and by column selection (`df[[...]]`), which
in pandas raises KeyError when a requested label is absent. -/
structure CapFrame where
  columns : List String
  rows : List CapRow

/-- The column labels of the pipeline DataFrame reaching `CapacityAnalyzer`: the raw
CSV schema of config (identification, flow and lane columns), the loader metadata, and
the derived columns added by the AADT, peak-hour and capacity stages. -/
def pipeline_columns : List String :=
  ["DIRECT", "TYPE", "ID", "LENGTH",
   "AB_FLOW_DA", "AB_FLOW_SR", "AB_FLOW_S1", "AB_FLOW_LI", "AB_FLOW_ME", "AB_FLOW_HE",
   "AB_FLOW_D1", "AB_FLOW_S4", "AB_FLOW_S5", "AB_FLOW_L1", "AB_FLOW_M1", "AB_FLOW_H1",
   "AB_FLOW_D2", "AB_FLOW_S8", "AB_FLOW_S9", "AB_FLOW_L2", "AB_FLOW_M2", "AB_FLOW_H2",
   "AB_FLOW_D3", "AB_FLOW_12", "AB_FLOW_13", "AB_FLOW_L3", "AB_FLOW_M3", "AB_FLOW_H3",
   "AB_FLOW_D4", "AB_FLOW_16", "AB_FLOW_17", "AB_FLOW_L4", "AB_FLOW_M4", "AB_FLOW_H4",
   "AB_AMLANES", "AB_PMLANES", "AB_MDLANES", "AB_EVELANE", "AB_NTLANES",
   "YEAR", "SECTION",
   "TOTAL_AADT", "AUTO_AADT", "TRUCK_AADT", "TRUCK_PCT",
   "AM_PEAK_TOTAL", "AM_PEAK_AUTO", "AM_PEAK_TRUCK",
   "PM_PEAK_TOTAL", "PM_PEAK_AUTO", "PM_PEAK_TRUCK",
   "AM_PCE_FLOW", "AM_CAPACITY", "AM_VC_RATIO", "AM_LOS",
   "PM_PCE_FLOW", "PM_CAPACITY", "PM_VC_RATIO", "PM_LOS"]

/-- The column labels `identify_bottlenecks` selects after filtering — note the
hard-coded lowercase "direction" and "type", not `config.DIRECTION_FIELD` ("DIRECT")
and `config.TYPE_FIELD` ("TYPE") used everywhere else in the module. -/
def bottleneck_columns (period : String) : List String :=
  ["direction", "type", period ++ "_VC_RATIO", period ++ "_LOS",
   period ++ "_PCE_FLOW", period ++ "_CAPACITY"]

/-- One row of the frame `identify_bottlenecks` would return: the selected
identification cells, V/C ratio, LOS grade, PCE flow and capacity. -/
structure BottleneckRow where
  direction : String
  type : String
  vc : Option ℚ
  los : String
  pce_flow : ℚ
  capacity : ℚ
deriving DecidableEq

/-- Descending comparison on V/C cells: pandas `sort_values(ascending=False)` places
NaN last. -/
def vcGe (a b : Option ℚ) : Bool :=
  match a, b with
  | some x, some y => decide (y ≤ x)
  | some _, none => true
  | none, _ => false

/-- CapacityAnalyzer.identify_bottlenecks: ValueError on a period outside AM, PM and
on a threshold outside [0, 3]; ValueError when the period V/C column is absent; then
keep the rows with V/C ratio strictly above the threshold (a NaN cell never passes the
comparison), select the `bottleneck_columns` — KeyError when a requested label is not
in the frame's column index — and sort descending by the V/C cell. -/
def identify_bottlenecks (df : CapFrame) (period : String) (vc_threshold : ℚ) :
    Except String (List BottleneckRow) :=
  if ¬(period = "AM" ∨ period = "PM") then .error "period should be AM or PM."
  else if vc_threshold < 0 ∨ vc_threshold > 3 then
    .error "vc_threshold should be between 0 and 3.0."
  else if (period ++ "_VC_RATIO") ∉ df.columns then
    .error "VC column should exists in the table"
  else
    let vcOf : CapRow → Option ℚ := fun r => if period = "AM" then r.AM_VC else r.PM_VC
    let filtered := df.rows.filter (fun r =>
      match vcOf r with
      | none => false
      | some v => decide (vc_threshold < v))
    if (bottleneck_columns period).all (fun c => decide (c ∈ df.columns)) then
      .ok (sortGe (fun a b => vcGe a.vc b.vc)
        (filtered.map (fun r =>
          { direction := r.DIRECT
            type := r.TYPE
            vc := vcOf r
            los := if period = "AM" then r.AM_LOS else r.PM_LOS
            pce_flow := if period = "AM" then r.AM_PCE_FLOW else r.PM_PCE_FLOW
            capacity := if period = "AM" then r.AM_CAPACITY else r.PM_CAPACITY })))
    else .error "KeyError: columns not in index"

/-- The pipeline capacity frame holding the single row `capRow2`, whose AM V/C ratio
0.9 strictly exceeds the default bottleneck threshold 0.85. -/
def capFrame2 : CapFrame := { columns := pipeline_columns, rows := [capRow2] }

/-- C7 (code evidence): on the pipeline frame — one row with AM V/C ratio 0.9 — the
threshold validation does raise for 3.5, but the in-range call with threshold 0.85
raises KeyError instead of returning the filtered, descending-sorted segments, because
the selection asks for the hard-coded lowercase labels "direction" and "type" while
the frame's identification columns are "DIRECT" and "TYPE". -/
theorem C7_identify_bottlenecks_keyerror :
    identify_bottlenecks capFrame2 "AM" 0.85 = .error "KeyError: columns not in index" ∧
    identify_bottlenecks capFrame2 "AM" 3.5 = .error "vc_threshold should be between 0 and 3.0." := by
  have h1 : ¬¬(("AM" : String) = "AM" ∨ ("AM" : String) = "PM") := not_not_intro (Or.inl rfl)
  constructor
  · rw [identify_bottlenecks, if_neg h1,
      if_neg (by norm_num : ¬((0.85 : ℚ) < 0 ∨ (0.85 : ℚ) > 3)),
      if_neg (not_not_intro (by decide : ("AM" ++ "_VC_RATIO") ∈ capFrame2.columns))]
    simp only []
    rw [if_neg (by decide :
      ¬((bottleneck_columns "AM").all (fun c => decide (c ∈ capFrame2.columns)) = true))]
  · rw [identify_bottlenecks, if_neg h1,
      if_pos (Or.inr (by norm_num : (3.5 : ℚ) > 3))]

/-- A DataFrame object held in the Python heap; for the aliasing argument the row type
does not matter, so cells hold tables of raw segment rows. -/
def Df : Type := List SegmentRow

/-- The mutable state of the analysis pipeline: the heap of DataFrame objects (a
Python variable referencing a DataFrame is an index into `heap`) and the cells owned
by the analyzers constructed so far (`AADTCalculator`, `PeakHourAnalyzer`,
`CapacityAnalyzer`, `TruckAnalyzer` — each constructor runs `self.df = df.copy()`,
i.e. allocates a fresh cell holding a value copy of the argument). -/
structure PipelineState where
  heap : List Df
  analyzers : List ℕ

/-- One observable operation of the pipeline:
`init src` constructs an analyzer from the DataFrame at heap index `src` (the
`df.copy()` in the four constructors allocates a fresh cell); `method k f` runs any
method of the `k`-th constructed analyzer — every method of the four classes reads and
writes only `self.df` (and `self.results`), which `f` models as an arbitrary update of
the analyzer's own cell. -/
inductive AnalyzerOp where
  | init : ℕ → AnalyzerOp
  | method : ℕ → (Df → Df) → AnalyzerOp

/-- Apply one pipeline operation to the state. -/
def apply_op (s : PipelineState) : AnalyzerOp → PipelineState
  | .init src =>
    { heap := s.heap ++ [s.heap.getD src []]
      analyzers := s.analyzers ++ [s.heap.length] }
  | .method k f =>
    match s.analyzers.get? k with
    | none => s
    | some ref => { s with heap := s.heap.set ref (f (s.heap.getD ref [])) }

/-- Run a sequence of pipeline operations. -/
def run_ops (s : PipelineState) : List AnalyzerOp → PipelineState
  | [] => s
  | op :: ops => run_ops (apply_op s op) ops

/-- Every analyzer cell is a fresh allocation: its index is at least `n` (the size of
the original caller heap), and the heap only grows. -/
def fresh_invariant (n : ℕ) (s : PipelineState) : Prop :=
  n ≤ s.heap.length ∧ ∀ ref ∈ s.analyzers, n ≤ ref

theorem apply_op_invariant (n : ℕ) (s : PipelineState) (op : AnalyzerOp)
    (h : fresh_invariant n s) : fresh_invariant n (apply_op s op) := by
  obtain ⟨hlen, hrefs⟩ := h
  cases op with
  | init src =>
    refine ⟨?_, ?_⟩
    · simp only [apply_op, List.length_append, List.length_singleton]
      omega
    · intro ref href
      simp only [apply_op] at href
      rcases List.mem_append.mp href with href | href
      · exact hrefs ref href
      · rw [List.mem_singleton] at href
        omega
  | method k f =>
    rw [apply_op]
    cases hk : s.analyzers.get? k with
    | none => exact ⟨hlen, hrefs⟩
    | some ref =>
      refine ⟨?_, hrefs⟩
      simp only [List.length_set]
      exact hlen

theorem apply_op_preserves_caller (n : ℕ) (s : PipelineState) (op : AnalyzerOp)
    (h : fresh_invariant n s) (i : ℕ) (hi : i < n) :
    (apply_op s op).heap.getD i [] = s.heap.getD i [] := by
  obtain ⟨hlen, hrefs⟩ := h
  cases op with
  | init src =>
    simp only [apply_op, List.getD, List.get?_eq_getElem?]
    rw [List.getElem?_append_left (by omega)]
  | method k f =>
    rw [apply_op]
    cases hk : s.analyzers.get? k with
    | none => rfl
    | some ref =>
      have hne : ref ≠ i := by
        have := hrefs ref (List.get?_mem hk)
        omega
      simp only [List.getD, List.get?_eq_getElem?]
      rw [List.getElem?_set_ne hne]

theorem run_ops_preserves_caller (n : ℕ) (ops : List AnalyzerOp) :
    ∀ s : PipelineState, fresh_invariant n s → ∀ i < n,
      (run_ops s ops).heap.getD i [] = s.heap.getD i [] := by
  induction ops with
  | nil => intro s _ i _; rfl
  | cons op ops ih =>
    intro s hs i hi
    rw [run_ops]
    rw [ih (apply_op s op) (apply_op_invariant n s op hs) i hi]
    exact apply_op_preserves_caller n s op hs i hi

/-- C10: starting from the caller's heap with no analyzers yet, any sequence of
analyzer constructions and method calls leaves every one of the caller's DataFrames
unchanged — the constructors copy their argument into a fresh cell, and methods only
mutate the analyzer's own cell. -/
theorem C10_caller_df_never_mutated (h0 : List Df) (ops : List AnalyzerOp) (i : ℕ)
    (hi : i < h0.length) :
    (run_ops { heap := h0, analyzers := [] } ops).heap.getD i [] = h0.getD i [] := by
  exact run_ops_preserves_caller h0.length ops { heap := h0, analyzers := [] }
    ⟨le_refl _, by intro ref href; cases href⟩ i hi

/-- Witness for C10: a one-DataFrame caller heap, constructing an analyzer on it and
running a method that overwrites the analyzer table with the empty table; the caller
cell still holds `[seg0]`. -/
theorem C10_caller_df_never_mutated_witness :
    (run_ops { heap := [[seg0]], analyzers := [] }
      [AnalyzerOp.init 0, AnalyzerOp.method 0 (fun _ => [])]).heap.getD 0 [] =
      [[seg0]].getD 0 [] :=
  C10_caller_df_never_mutated [[seg0]] [AnalyzerOp.init 0, AnalyzerOp.method 0 (fun _ => [])]
    0 (by norm_num)

end Scag
